import Mathlib

/-!
Shallow embedding of the session / authentication / admin core of
`src/app.py` (Streamlit expense tracker).

Modelling conventions:
* MongoDB collections (`users`, expenses, `audit_logs`) are lists of
  structures; `insert_one` appends, `delete_one` removes the first match,
  `delete_many` filters, `update_one` updates the first match.
* The Redis session store is a list of entries `session:<token> -> username`
  with an absolute expiry instant; the current instant is `World.now`.
  `setex`, `get`, `delete`, `expire` follow Redis semantics: a key is
  readable while `now < expiresAt`, `delete` and `expire` report whether a
  live key existed.
* Redis client failure (every wrapper in the source catches exceptions from
  the client and returns `False` / `None`) is modelled by the flag
  `World.redisOk`: when it is `false` the wrappers take their `except`
  branch.  Mongo is modelled as available (its failure is not the subject
  of any claim; `log_action` likewise swallows audit-store failure).
* `generate_token` (`uuid4().hex`) is modelled by the oracle field
  `World.nextToken` holding the fresh token the call returns.
* `st.session_state` auth fields are the structure `AppState`; the
  `session_token` query parameter is `World.queryToken`.
* `st.error` / `st.warning` / `st.info` / `st.success` calls are collected
  as a list of `UiMsg`, with the exact message texts of the source
  (apostrophes written as the escape `\x27`).
* Python `str.strip()` is `py_strip`, implemented over the character list
  so that the kernel can evaluate it.
* `hash_password` (an unsalted sha256 hex digest) is used by the code only
  through equality tests, so the embedding passes it as an explicit
  function parameter `hp`; every theorem holds for an arbitrary `hp`.
-/

/-- Document of the `users` collection: `{username, password_hash, role}`
(`created_at` plays no role in any claim and is omitted). -/
structure UserRec where
  username : String
  password_hash : String
  role : String
deriving Repr, DecidableEq

/-- Document of the expenses collection.  Only the `owner` field is ever
consulted by the modelled operations; `eid` stands for the remaining
payload (`_id`, category, amount, ...) so records stay distinguishable. -/
structure Expense where
  eid : Nat
  owner : String
deriving Repr, DecidableEq

/-- Document of `audit_logs` as written by `log_action`; `details` is the
open key/value bag with stringified values, `timestamp` is omitted (no
claim consults it). -/
structure AuditEntry where
  action : String
  actor : Option String
  target : Option String
  details : List (String × String)
deriving Repr, DecidableEq

/-- Live Redis key `session:<token> -> username` with absolute expiry. -/
structure SessionEntry where
  token : String
  username : String
  expiresAt : Nat
deriving Repr, DecidableEq

/-- Authentication-relevant part of `st.session_state`
(`authenticated`, `username`, `is_admin`, `_login_error`). -/
structure AppState where
  authenticated : Bool
  username : Option String
  is_admin : Bool
  login_error : Option String
deriving Repr, DecidableEq

/-- Whole external state: Mongo collections, Redis store, the
`session_token` query parameter, the clock, the token oracle and the
Redis-availability flag. -/
structure World where
  users : List UserRec
  expenses : List Expense
  audit : List AuditEntry
  sessions : List SessionEntry
  queryToken : Option String
  now : Nat
  nextToken : String
  redisOk : Bool
deriving Repr, DecidableEq

/-- One `st.error` / `st.warning` / `st.info` / `st.success` call. -/
inductive UiMsg where
  | error (text : String) : UiMsg
  | warning (text : String) : UiMsg
  | info (text : String) : UiMsg
  | success (text : String) : UiMsg
deriving Repr, DecidableEq

/-- Python `str.strip()` over the character list (kernel-evaluable stand-in
for `String.trim`). -/
def py_strip (s : String) : String :=
  ⟨((s.data.dropWhile Char.isWhitespace).reverse.dropWhile Char.isWhitespace).reverse⟩

/-- Default session TTL used throughout the source: `60 * 60 * 4` seconds. -/
def default_ttl_seconds : Nat := 60 * 60 * 4

/-! ## Redis primitives (store-level semantics) -/

/-- Physical lookup of the entry for a token, ignoring expiry. -/
def redisFind (sessions : List SessionEntry) (token : String) : Option SessionEntry :=
  sessions.find? (fun e => e.token == token)

/-- Redis `GET session:<token>`: the bound username while unexpired. -/
def redisGet (sessions : List SessionEntry) (now : Nat) (token : String) : Option String :=
  match redisFind sessions token with
  | some e => if now < e.expiresAt then some e.username else none
  | none => none

/-- Redis `SETEX session:<token> ttl username`: (re)creates the key with a
fresh expiry. -/
def redisSetex (sessions : List SessionEntry) (now : Nat) (token : String)
    (ttl : Nat) (username : String) : List SessionEntry :=
  ⟨token, username, now + ttl⟩ :: sessions.filter (fun e => e.token != token)

/-- Redis `DEL session:<token>`: removes the key. -/
def redisDel (sessions : List SessionEntry) (token : String) : List SessionEntry :=
  sessions.filter (fun e => e.token != token)

/-- Redis `EXPIRE session:<token> ttl`: resets the expiry of the key. -/
def redisExpire (sessions : List SessionEntry) (now : Nat) (token : String)
    (ttl : Nat) : List SessionEntry :=
  sessions.map (fun e => if e.token == token then { e with expiresAt := now + ttl } else e)

/-- Remaining TTL of a token as Redis would report it (0 when absent). -/
def remaining_ttl (w : World) (token : String) : Nat :=
  match redisFind w.sessions token with
  | some e => e.expiresAt - w.now
  | none => 0

/-! ## Helpers and audit logging (src/app.py lines 205-228) -/

/-- Embeds `log_action`: appends one audit document (the audit store is
modelled as available; the source swallows its failure). -/
def log_action (action : String) (actor : Option String) (target : Option String)
    (details : List (String × String)) (w : World) : World :=
  { w with audit := w.audit ++ [⟨action, actor, target, details⟩] }

/-- Embeds `users_col.find_one({"username": name})`. -/
def find_user (users : List UserRec) (name : String) : Option UserRec :=
  users.find? (fun d => d.username == name)

/-! ## Redis session helpers (src/app.py lines 304-365) -/

/-- Embeds `generate_token` (`uuid4().hex`) via the freshness oracle. -/
def generate_token (w : World) : String := w.nextToken

/-- Embeds `store_token_in_redis`: `setex` wrapped so that a client failure
returns `False` and leaves the store untouched. -/
def store_token_in_redis (token username : String) (ttl_seconds : Nat)
    (w : World) : Bool × World :=
  if w.redisOk then
    (true, { w with sessions := redisSetex w.sessions w.now token ttl_seconds username })
  else
    (false, w)

/-- Embeds `get_username_from_token`: `get` wrapped so that a client
failure returns `None`. -/
def get_username_from_token (token : String) (w : World) : Option String :=
  if w.redisOk then redisGet w.sessions w.now token else none

/-- Embeds `delete_token`: `bool(delete)` wrapped so that a client failure
returns `False`. -/
def delete_token (token : String) (w : World) : Bool × World :=
  if w.redisOk then
    ((redisGet w.sessions w.now token).isSome, { w with sessions := redisDel w.sessions token })
  else
    (false, w)

/-- Embeds `refresh_token_ttl`: `expire` wrapped so that a client failure
returns `False`. -/
def refresh_token_ttl (token : String) (ttl_seconds : Nat) (w : World) : Bool × World :=
  if w.redisOk then
    if (redisGet w.sessions w.now token).isSome then
      (true, { w with sessions := redisExpire w.sessions w.now token ttl_seconds })
    else
      (false, w)
  else
    (false, w)

/-- Embeds `set_query_token`. -/
def set_query_token (token : String) (w : World) : World :=
  { w with queryToken := some token }

/-- Embeds `clear_query_params`. -/
def clear_query_params (w : World) : World :=
  { w with queryToken := none }

/-- Embeds `read_token_from_query` (the list case of `st.query_params.get`
collapses into the optional value). -/
def read_token_from_query (w : World) : Option String := w.queryToken

/-! ## Authentication functions (src/app.py lines 404-477) -/

/-- Embeds `create_redis_session_and_set_url`: the spec operation
`issue(username)`. -/
def create_redis_session_and_set_url (username : String) (ttl_seconds : Nat)
    (w : World) : Option String × World :=
  let token := generate_token w
  let r := store_token_in_redis token username ttl_seconds w
  if r.1 then
    (some token, set_query_token token r.2)
  else
    (none, r.2)

/-- Embeds `restore_session_from_url_token`: the spec operation
`resolve()`.  Python truthiness of the token means the empty string is
treated like an absent token. -/
def restore_session_from_url_token (s : AppState) (w : World) : AppState × World :=
  match read_token_from_query w with
  | none => (s, w)
  | some token =>
    if token != "" && !s.authenticated then
      match get_username_from_token token w with
      | some username =>
        let u := find_user w.users username
        let s1 : AppState :=
          { s with
            authenticated := true
            username := some username
            is_admin := match u with | some d => d.role == "admin" | none => false }
        (s1, log_action "session_restored" (some username) none [] w)
      | none => (s, w)
    else
      (s, w)

/-- Embeds `clear_url_token_and_redis`: the spec operation `revoke` as the
code performs it (delete the token read from the URL, then clear the
query parameters). -/
def clear_url_token_and_redis (w : World) : World :=
  match read_token_from_query w with
  | some token =>
    if token != "" then
      clear_query_params (delete_token token w).2
    else
      clear_query_params w
  | none => clear_query_params w

/-- Embeds `login` with the form inputs as arguments and the hash function
as the parameter `hp`. -/
def login (hp : String → String) (login_user login_pwd : String)
    (s : AppState) (w : World) : AppState × World :=
  let user := py_strip login_user
  let pwd := login_pwd
  if user == "" || pwd == "" then
    ({ s with login_error := some "Provide both username and password." }, w)
  else
    match find_user w.users user with
    | none => ({ s with login_error := some "Invalid username or password." }, w)
    | some u =>
      if u.password_hash == hp pwd then
        let s1 : AppState :=
          { s with
            authenticated := true
            username := some user
            is_admin := u.role == "admin"
            login_error := none }
        let w1 := (create_redis_session_and_set_url user default_ttl_seconds w).2
        (s1, log_action "login" (some user) none [] w1)
      else
        ({ s with login_error := some "Invalid username or password." }, w)

/-- Embeds `logout` (the cookie-clearing JS snippet is client-side and has
no server-state effect). -/
def logout (s : AppState) (w : World) : AppState × World :=
  let user := s.username
  let w1 := log_action "logout" user none [] w
  let w2 := clear_url_token_and_redis w1
  ({ s with authenticated := false, username := none, is_admin := false, login_error := none }, w2)

/-! ## Admin operations (src/app.py lines 479-543 and the show_app handlers) -/

/-- Embeds `create_user`. -/
def create_user (hp : String → String) (username password role : String)
    (s : AppState) (w : World) : World × List UiMsg :=
  let username := py_strip username
  if username == "" || password == "" then
    (w, [UiMsg.error "Provide username and password."])
  else if (find_user w.users username).isSome then
    (w, [UiMsg.error "User already exists."])
  else
    let w1 := { w with users := w.users ++ [⟨username, hp password, role⟩] }
    let w2 := log_action "create_user" s.username (some username) [("role", role)] w1
    (w2, [UiMsg.success ("User \x27" ++ username ++ "\x27 created with role \x27" ++ role ++ "\x27.")])

/-- Updates the first user record matching a username (`update_one` with a
`$set` of the password hash). -/
def update_first_user (name : String) (f : UserRec → UserRec) : List UserRec → List UserRec
  | [] => []
  | u :: rest =>
    if u.username == name then f u :: rest else u :: update_first_user name f rest

/-- Embeds `reset_user_password`. -/
def reset_user_password (hp : String → String) (target_username new_password : String)
    (s : AppState) (w : World) : World × List UiMsg :=
  if target_username == "" || new_password == "" then
    (w, [UiMsg.error "Provide target user and new password."])
  else
    let matched : Nat := if (find_user w.users target_username).isSome then 1 else 0
    let users1 := update_first_user target_username
      (fun u => { u with password_hash := hp new_password }) w.users
    let w1 := { w with users := users1 }
    if matched == 0 then
      (w1, [UiMsg.warning ("No user record found for \x27" ++ target_username ++ "\x27.")])
    else
      let w2 := log_action "reset_password" s.username (some target_username) [] w1
      (w2, [UiMsg.success ("Password for \x27" ++ target_username ++ "\x27 has been reset.")])

/-- Embeds `users_col.delete_one({"username": name})`: count plus new list. -/
def users_delete_one (name : String) (users : List UserRec) : Nat × List UserRec :=
  if (users.find? (fun d => d.username == name)).isSome then
    (1, users.eraseP (fun d => d.username == name))
  else
    (0, users)

/-- Embeds `collection.delete_many({"owner": name})`: count plus new list. -/
def expenses_delete_many_owner (name : String) (exps : List Expense) : Nat × List Expense :=
  ((exps.filter (fun e => e.owner == name)).length, exps.filter (fun e => e.owner != name))

/-- Number of expense records owned by a user. -/
def count_owned (exps : List Expense) (name : String) : Nat :=
  (exps.filter (fun e => e.owner == name)).length

/-- Number of user records carrying a username (the Mongo unique index
makes this at most 1 in reachable stores). -/
def count_username (users : List UserRec) (name : String) : Nat :=
  (users.filter (fun d => d.username == name)).length

/-- Embeds `delete_user`. -/
def delete_user (target_username : String) (delete_expenses : Bool)
    (s : AppState) (w : World) : World × List UiMsg :=
  if target_username == "" then
    (w, [UiMsg.error "Select a user to delete."])
  else
    let rUser := users_delete_one target_username w.users
    let w1 := { w with users := rUser.2 }
    let rExp : Option Nat × World :=
      if delete_expenses then
        let r := expenses_delete_many_owner target_username w1.expenses
        (some r.1, { w1 with expenses := r.2 })
      else
        (none, w1)
    let w2 := rExp.2
    if rUser.1 == 0 then
      let warnMsg := UiMsg.warning ("No user record found for \x27" ++ target_username ++ "\x27.")
      match rExp.1 with
      | some n =>
        if delete_expenses ∧ 0 < n then
          let w3 := log_action "delete_user_expenses_only" s.username (some target_username)
                      [("deleted_expenses", toString n)] w2
          (w3, [warnMsg,
                UiMsg.info ("User not found, but " ++ toString n ++
                  " expense(s) owned by \x27" ++ target_username ++ "\x27 were deleted.")])
        else
          (w2, [warnMsg])
      | none => (w2, [warnMsg])
    else
      let msg :=
        match rExp.1 with
        | some n =>
          if n == 0 ∧ delete_expenses then
            UiMsg.info ("User \x27" ++ target_username ++
              "\x27 deleted, but no expenses were found for that user.")
          else if 0 < n then
            UiMsg.success ("User \x27" ++ target_username ++ "\x27 and " ++ toString n ++
              " expense(s) deleted.")
          else
            UiMsg.success ("User \x27" ++ target_username ++ "\x27 deleted.")
        | none => UiMsg.success ("User \x27" ++ target_username ++ "\x27 deleted.")
      let w3 := log_action "delete_user" s.username (some target_username)
                  [("deleted_expenses", if delete_expenses then "True" else "False")] w2
      (w3, [msg])

/-- Embeds the delete-all handler inside `show_app` (src/app.py lines
834-844): `delete_many({})`, then either an info message (zero records) or
an audit entry plus warning. -/
def delete_all_expenses (s : AppState) (w : World) : World × List UiMsg :=
  let n := w.expenses.length
  let w1 := { w with expenses := [] }
  if n == 0 then
    (w1, [UiMsg.info "No expense records found to delete."])
  else
    let w2 := log_action "delete_all_expenses" s.username none
                [("deleted_count", toString n)] w1
    (w2, [UiMsg.warning ("⚠️ " ++ toString n ++ " expense(s) deleted.")])

/-- Embeds the candidate list of the Delete User expander in `show_app`
(src/app.py lines 816-818): every username except the caller and the
bootstrap admin from secrets (when configured). -/
def users_list_del (current_username : String) (bootstrap_admin : Option String)
    (users : List UserRec) : List String :=
  (users.map (fun d => d.username)).filter
    (fun u => u != current_username &&
      (match bootstrap_admin with | some b => u != b | none => true))


/-! ## Helper lemmas -/

theorem filter_idem {α : Type} (p : α → Bool) (l : List α) :
    (l.filter p).filter p = l.filter p := by
  induction l with
  | nil => rfl
  | cons a t ih => cases h : p a <;> simp [List.filter_cons, h, ih]

theorem find?_filter_not {α : Type} (p : α → Bool) (l : List α) :
    (l.filter (fun a => !p a)).find? p = none := by
  induction l with
  | nil => rfl
  | cons a t ih => cases h : p a <;> simp [List.filter_cons, h, ih]

theorem length_filter_add_length_filter_not {α : Type} (p : α → Bool) (l : List α) :
    (l.filter p).length + (l.filter (fun a => !p a)).length = l.length := by
  induction l with
  | nil => rfl
  | cons a t ih => cases h : p a <;> simp [List.filter_cons, h] <;> omega

theorem find?_eraseP_of_length_le_one {α : Type} (p : α → Bool) (l : List α)
    (hlen : (l.filter p).length ≤ 1) : (l.eraseP p).find? p = none := by
  induction l with
  | nil => rfl
  | cons a t ih =>
    cases h : p a
    · have h' : ¬ p a = true := by simp [h]
      rw [List.eraseP_cons_of_neg h', List.find?_cons_of_neg _ h']
      apply ih
      rwa [List.filter_cons_of_neg h'] at hlen
    · rw [List.eraseP_cons_of_pos h]
      rw [List.filter_cons_of_pos h] at hlen
      simp only [List.length_cons] at hlen
      have ht : (t.filter p).length = 0 := by omega
      rw [List.find?_eq_none]
      intro x hx
      have hnil : t.filter p = [] := List.length_eq_zero.mp ht
      have := List.filter_eq_nil_iff.mp hnil x hx
      simp [this]

theorem redisFind_redisDel (l : List SessionEntry) (t : String) :
    redisFind (redisDel l t) t = none := by
  unfold redisFind redisDel
  induction l with
  | nil => rfl
  | cons a rest ih => cases h : a.token == t <;> simp [List.filter_cons, bne, h, ih]

theorem redisDel_idem (l : List SessionEntry) (t : String) :
    redisDel (redisDel l t) t = redisDel l t :=
  filter_idem _ l

theorem redisFind_redisExpire (l : List SessionEntry) (now : Nat) (t : String) (ttl : Nat) :
    redisFind (redisExpire l now t ttl) t =
      (redisFind l t).map (fun e => { e with expiresAt := now + ttl }) := by
  unfold redisFind redisExpire
  induction l with
  | nil => rfl
  | cons a rest ih =>
    by_cases h : a.token = t
    · simp [List.map_cons, List.find?_cons, h]
    · have hb : (a.token == t) = false := by simp [h]
      simp only [List.map_cons, List.find?_cons, hb, Bool.false_eq_true, if_false]
      exact ih

theorem clear_query_params_of_none (w : World) (h : w.queryToken = none) :
    clear_query_params w = w := by
  cases w
  simp only [clear_query_params]
  simp_all

theorem clear_url_queryToken_none (w : World) :
    (clear_url_token_and_redis w).queryToken = none := by
  unfold clear_url_token_and_redis read_token_from_query
  cases hq : w.queryToken with
  | none => rfl
  | some t =>
    by_cases ht : t = "" <;> simp [ht, clear_query_params, delete_token]

theorem clear_url_of_queryToken_none (w : World) (h : w.queryToken = none) :
    clear_url_token_and_redis w = w := by
  unfold clear_url_token_and_redis read_token_from_query
  rw [h]
  exact clear_query_params_of_none w h

theorem clear_url_audit (w : World) :
    (clear_url_token_and_redis w).audit = w.audit := by
  unfold clear_url_token_and_redis read_token_from_query clear_query_params delete_token
  cases hq : w.queryToken with
  | none => rfl
  | some t =>
    by_cases ht : t = ""
    · simp [ht]
    · simp only [ht, bne_self_eq_false]
      simp [ht]
      split <;> rfl

/-! ## Claim theorems -/

/-- C3: for every failed login with non-empty username and password, the
user-visible error message is the same whether the username is unknown in
the Credential Store or the username exists and the password hash does not
match: both set the literal error `Invalid username or password.`. -/
theorem C3_login_failure_message_identical
    (hp : String → String) (lu1 lp1 lu2 lp2 : String) (s1 s2 : AppState)
    (w : World) (u : UserRec)
    (h1 : py_strip lu1 ≠ "") (h2 : lp1 ≠ "")
    (h3 : py_strip lu2 ≠ "") (h4 : lp2 ≠ "")
    (hf1 : find_user w.users (py_strip lu1) = none)
    (hf2 : find_user w.users (py_strip lu2) = some u)
    (hne : u.password_hash ≠ hp lp2) :
    (login hp lu1 lp1 s1 w).1.login_error = some "Invalid username or password." ∧
    (login hp lu2 lp2 s2 w).1.login_error = some "Invalid username or password." := by
  constructor
  · unfold login
    simp [h1, h2, hf1]
  · unfold login
    simp [h3, h4, hf2, hne]

/-- C4: on every page load, `restore_session_from_url_token` (the spec's
`resolve`) authenticates with the bound username exactly when the URL
carrier holds a non-empty token that is live in the Session Store; in
every other situation — no token in the carrier, empty token, token absent
or expired in the store, Redis failure — it is a total no-op that leaves
the state Anonymous (it is a total function, so no error surfaces). -/
theorem C4_resolve_safe_on_every_load :
    (∀ (s : AppState) (w : World) (t name : String),
       s.authenticated = false → w.queryToken = some t → t ≠ "" →
       w.redisOk = true → redisGet w.sessions w.now t = some name →
       (restore_session_from_url_token s w).1.authenticated = true ∧
       (restore_session_from_url_token s w).1.username = some name) ∧
    (∀ (s : AppState) (w : World),
       w.queryToken = none →
       restore_session_from_url_token s w = (s, w)) ∧
    (∀ (s : AppState) (w : World) (t : String),
       w.queryToken = some t →
       get_username_from_token t w = none →
       restore_session_from_url_token s w = (s, w)) ∧
    (∀ (s : AppState) (w : World),
       w.queryToken = some "" →
       restore_session_from_url_token s w = (s, w)) := by
  refine ⟨?_, ?_, ?_, ?_⟩
  · intro s w t name hs hq ht hr hget
    unfold restore_session_from_url_token read_token_from_query
    rw [hq]
    simp [ht, hs, get_username_from_token, hr, hget]
  · intro s w hq
    unfold restore_session_from_url_token read_token_from_query
    rw [hq]
  · intro s w t hq hget
    unfold restore_session_from_url_token read_token_from_query
    rw [hq]
    by_cases ht : t = ""
    · simp [ht]
    · simp [ht, hget]
  · intro s w hq
    unfold restore_session_from_url_token read_token_from_query
    rw [hq]
    simp

/-- C5: revoke is idempotent.  With the Session Store available,
`delete_token` leaves the token absent from the store, and a second
`delete_token` on the already-absent token changes nothing and returns
`false` rather than raising; the full `clear_url_token_and_redis` path is
idempotent as a state transformer. -/
theorem C5_idempotent_revoke :
    (∀ (w : World) (t : String), w.redisOk = true →
       redisGet (delete_token t w).2.sessions (delete_token t w).2.now t = none ∧
       delete_token t (delete_token t w).2 = (false, (delete_token t w).2)) ∧
    (∀ w : World,
       clear_url_token_and_redis (clear_url_token_and_redis w) =
         clear_url_token_and_redis w) := by
  constructor
  · intro w t hr
    unfold delete_token
    simp only [hr, if_true]
    constructor
    · simp [redisGet, redisFind_redisDel]
    · simp [redisGet, redisFind_redisDel, redisDel_idem]
  · intro w
    exact clear_url_of_queryToken_none _ (clear_url_queryToken_none w)

theorem delete_user_users (target : String) (d : Bool) (s : AppState) (w : World)
    (ht : target ≠ "") :
    (delete_user target d s w).1.users = (users_delete_one target w.users).2 := by
  unfold delete_user
  simp only [ht, beq_iff_eq, if_false, reduceIte]
  repeat' split
  all_goals simp [log_action]

theorem delete_user_sessions (target : String) (d : Bool) (s : AppState) (w : World) :
    (delete_user target d s w).1.sessions = w.sessions := by
  unfold delete_user
  repeat' split
  all_goals try simp [log_action]
  all_goals repeat' split
  all_goals simp [log_action]

theorem delete_user_expenses_of_cascade (target : String) (s : AppState) (w : World)
    (ht : target ≠ "") :
    (delete_user target true s w).1.expenses =
      w.expenses.filter (fun e => e.owner != target) := by
  unfold delete_user
  simp only [ht, beq_iff_eq, if_false, reduceIte]
  repeat' split
  all_goals simp [log_action, expenses_delete_many_owner]

/-- C7: from any authenticated state, `logout` always appends exactly one
Audit Entry tagged `logout`, runs the revoke path on the token read from
the URL carrier (so with the store available a non-empty current token is
removed), and resets the request-local state to Anonymous; the reset and
the audit write happen for every Session Store outcome (success, token
absent, or failure `w.redisOk = false`) because they do not depend on the
delete result. -/
theorem C7_logout_always_resets_to_anonymous
    (s : AppState) (w : World) (hauth : s.authenticated = true) :
    (logout s w).1.authenticated = false ∧
    (logout s w).1.username = none ∧
    (logout s w).1.is_admin = false ∧
    (logout s w).2.audit = w.audit ++ [⟨"logout", s.username, none, []⟩] ∧
    (∀ t : String, w.queryToken = some t → t ≠ "" → w.redisOk = true →
       redisGet (logout s w).2.sessions (logout s w).2.now t = none) := by
  refine ⟨rfl, rfl, rfl, ?_, ?_⟩
  · show (clear_url_token_and_redis (log_action "logout" s.username none [] w)).audit = _
    rw [clear_url_audit]
    rfl
  · intro t hq ht hr
    show redisGet (clear_url_token_and_redis (log_action "logout" s.username none [] w)).sessions _ t = none
    unfold clear_url_token_and_redis read_token_from_query log_action delete_token clear_query_params
    simp only [hq, ht, hr]
    simp [ht, hr, redisGet, redisFind_redisDel]

/-- C9: a live session token whose bound username no longer exists in the
Credential Store still restores an Authenticated state with that username
and `is_admin = false`, and `delete_user` never touches the Session Store,
so deleting a user does not invalidate existing session tokens. -/
theorem C9_deleted_user_session_survives :
    (∀ (s : AppState) (w : World) (t name : String),
       s.authenticated = false → w.queryToken = some t → t ≠ "" →
       w.redisOk = true → redisGet w.sessions w.now t = some name →
       find_user w.users name = none →
       (restore_session_from_url_token s w).1.authenticated = true ∧
       (restore_session_from_url_token s w).1.username = some name ∧
       (restore_session_from_url_token s w).1.is_admin = false) ∧
    (∀ (target : String) (d : Bool) (s : AppState) (w : World),
       (delete_user target d s w).1.sessions = w.sessions) := by
  constructor
  · intro s w t name hs hq ht hr hget hfu
    unfold restore_session_from_url_token read_token_from_query
    rw [hq]
    simp [ht, hs, get_username_from_token, hr, hget, hfu]
  · intro target d s w
    exact delete_user_sessions target d s w

/-- C10: `delete_user` itself never compares the target with the caller or
with the bootstrap admin — for every non-empty target occurring once in
the Credential Store (in particular the caller's own or the bootstrap
admin's username) the record is deleted; the `not self, not the bootstrap
admin` precondition exists only in the admin-UI candidate list
`users_list_del`, which omits the current user and the bootstrap admin. -/
theorem C10_no_self_or_bootstrap_check_in_delete_user :
    (∀ (target : String) (d : Bool) (s : AppState) (w : World),
       target ≠ "" → count_username w.users target = 1 →
       find_user (delete_user target d s w).1.users target = none) ∧
    (∀ (cur : String) (boot : Option String) (users : List UserRec),
       cur ∉ users_list_del cur boot users) ∧
    (∀ (cur b : String) (users : List UserRec),
       b ∉ users_list_del cur (some b) users) := by
  refine ⟨?_, ?_, ?_⟩
  · intro target d s w ht hcount
    rw [delete_user_users target d s w ht]
    unfold users_delete_one find_user
    unfold count_username at hcount
    by_cases hf : (w.users.find? (fun u => u.username == target)).isSome
    · simp only [hf, if_true, reduceIte]
      exact find?_eraseP_of_length_le_one _ _ (le_of_eq hcount)
    · simp only [hf, if_false, reduceIte]
      simpa using hf
  · intro cur boot users
    intro hmem
    rw [users_list_del, List.mem_filter] at hmem
    simp at hmem
  · intro cur b users
    intro hmem
    rw [users_list_del, List.mem_filter] at hmem
    simp at hmem

theorem filter_filter_not_nil {α : Type} (p : α → Bool) (l : List α) :
    (l.filter (fun a => !p a)).filter p = [] := by
  induction l with
  | nil => rfl
  | cons a t ih => cases h : p a <;> simp [List.filter_cons, h, ih]

theorem find?_isSome_of_filter_length_pos {α : Type} (p : α → Bool) (l : List α)
    (h : 0 < (l.filter p).length) : (l.find? p).isSome := by
  rw [List.find?_isSome]
  by_contra hc
  push_neg at hc
  have hnil : l.filter p = [] := by
    rw [List.filter_eq_nil_iff]
    intro a ha hpa
    exact hc a ha hpa
  rw [hnil] at h
  simp at h

theorem delete_user_found_eq (target : String) (s : AppState) (w : World)
    (ht : target ≠ "") (u : UserRec)
    (hf : w.users.find? (fun d => d.username == target) = some u) :
    delete_user target true s w =
      ({ w with
          users := w.users.eraseP (fun d => d.username == target)
          expenses := w.expenses.filter (fun e => e.owner != target)
          audit := w.audit ++ [⟨"delete_user", s.username, some target,
            [("deleted_expenses", "True")]⟩] },
       [if 0 < count_owned w.expenses target then
          UiMsg.success ("User \x27" ++ target ++ "\x27 and " ++
            toString (count_owned w.expenses target) ++ " expense(s) deleted.")
        else
          UiMsg.info ("User \x27" ++ target ++
            "\x27 deleted, but no expenses were found for that user.")]) := by
  unfold delete_user users_delete_one expenses_delete_many_owner count_owned
  by_cases hn : (w.expenses.filter (fun e => e.owner == target)).length = 0
  · simp [ht, hf, hn, log_action]
  · simp [ht, hf, hn, log_action, Nat.pos_of_ne_zero hn]

theorem delete_user_absent_pos (target : String) (s : AppState) (w : World)
    (ht : target ≠ "")
    (hf : w.users.find? (fun d => d.username == target) = none)
    (hn : 0 < count_owned w.expenses target) :
    delete_user target true s w =
      ({ w with
          expenses := w.expenses.filter (fun e => e.owner != target)
          audit := w.audit ++ [⟨"delete_user_expenses_only", s.username, some target,
            [("deleted_expenses", toString (count_owned w.expenses target))]⟩] },
       [UiMsg.warning ("No user record found for \x27" ++ target ++ "\x27."),
        UiMsg.info ("User not found, but " ++ toString (count_owned w.expenses target) ++
          " expense(s) owned by \x27" ++ target ++ "\x27 were deleted.")]) := by
  unfold delete_user users_delete_one expenses_delete_many_owner
  unfold count_owned at hn
  simp [ht, hf, hn, count_owned, log_action]

theorem delete_user_absent_zero (target : String) (s : AppState) (w : World)
    (ht : target ≠ "")
    (hf : w.users.find? (fun d => d.username == target) = none)
    (hn : count_owned w.expenses target = 0) :
    delete_user target true s w =
      ({ w with expenses := w.expenses.filter (fun e => e.owner != target) },
       [UiMsg.warning ("No user record found for \x27" ++ target ++ "\x27.")]) := by
  unfold delete_user users_delete_one expenses_delete_many_owner
  unfold count_owned at hn
  simp [ht, hf, hn]

/-- C6: cascade-delete accounting.  For a user present (once) in the
Credential Store owning `n` expense records, `delete_user` with
`delete_expenses = true` removes exactly those `n` records and reports the
count (or reports that no expenses were found when `n = 0`); repeating the
same delete once the user record is gone removes 0 further records and
reports `No user record found`; and when the user record is absent but
cascade is requested and owned records exist, the records are deleted
anyway with a distinct report and a distinct audit tag. -/
theorem C6_cascade_delete_accounting
    (s : AppState) (w : World) (target : String)
    (ht : target ≠ "")
    (hcount : count_username w.users target = 1) :
    ((delete_user target true s w).1.expenses =
        w.expenses.filter (fun e => e.owner != target) ∧
     w.expenses.length =
        (delete_user target true s w).1.expenses.length + count_owned w.expenses target ∧
     count_owned (delete_user target true s w).1.expenses target = 0 ∧
     (delete_user target true s w).2 =
        [if 0 < count_owned w.expenses target then
           UiMsg.success ("User \x27" ++ target ++ "\x27 and " ++
             toString (count_owned w.expenses target) ++ " expense(s) deleted.")
         else
           UiMsg.info ("User \x27" ++ target ++
             "\x27 deleted, but no expenses were found for that user.")] ∧
     (delete_user target true s (delete_user target true s w).1).1.expenses =
        (delete_user target true s w).1.expenses ∧
     (delete_user target true s (delete_user target true s w).1).2 =
        [UiMsg.warning ("No user record found for \x27" ++ target ++ "\x27.")]) ∧
    (∀ w2 : World, find_user w2.users target = none →
       0 < count_owned w2.expenses target →
       (delete_user target true s w2).1.expenses =
          w2.expenses.filter (fun e => e.owner != target) ∧
       (delete_user target true s w2).2 =
          [UiMsg.warning ("No user record found for \x27" ++ target ++ "\x27."),
           UiMsg.info ("User not found, but " ++ toString (count_owned w2.expenses target) ++
             " expense(s) owned by \x27" ++ target ++ "\x27 were deleted.")] ∧
       (delete_user target true s w2).1.audit =
          w2.audit ++ [⟨"delete_user_expenses_only", s.username, some target,
            [("deleted_expenses", toString (count_owned w2.expenses target))]⟩]) := by
  have hbne : (fun e : Expense => e.owner != target) =
      (fun e : Expense => !(e.owner == target)) := rfl
  have hpos : 0 < (w.users.filter (fun d => d.username == target)).length := by
    unfold count_username at hcount
    omega
  obtain ⟨u, hu⟩ := Option.isSome_iff_exists.mp
    (find?_isSome_of_filter_length_pos _ _ hpos)
  have hfirst := delete_user_found_eq target s w ht u hu
  have hle : (w.users.filter (fun d => d.username == target)).length ≤ 1 := by
    unfold count_username at hcount
    omega
  have herase :
      ((w.users.eraseP (fun d => d.username == target)).find?
        (fun d => d.username == target)) = none :=
    find?_eraseP_of_length_le_one _ _ hle
  have hczero :
      count_owned (w.expenses.filter (fun e => e.owner != target)) target = 0 := by
    unfold count_owned
    rw [hbne, filter_filter_not_nil]
    rfl
  have ha : (delete_user target true s w).1.expenses =
      w.expenses.filter (fun e => e.owner != target) := by rw [hfirst]
  refine ⟨⟨?_, ?_, ?_, ?_, ?_, ?_⟩, ?_⟩
  · exact ha
  · rw [ha]
    have hl := length_filter_add_length_filter_not
      (fun e : Expense => e.owner == target) w.expenses
    unfold count_owned
    rw [hbne]
    omega
  · rw [ha]
    exact hczero
  · rw [hfirst]
  · rw [hfirst]
    rw [delete_user_absent_zero target s _ ht herase hczero]
    exact filter_idem _ _
  · rw [hfirst]
    rw [delete_user_absent_zero target s _ ht herase hczero]
  · intro w2 hfu hn
    have hfu' : w2.users.find? (fun d => d.username == target) = none := hfu
    rw [delete_user_absent_pos target s w2 ht hfu' hn]
    exact ⟨rfl, rfl, rfl⟩

/-- C8 (amended): `refresh_token_ttl` with the store available and a live
token leaves the bound username unchanged and sets the remaining TTL to
the full default, which is ≥ the remaining TTL at the moment of the call
whenever that TTL is at most the default (as every write of this code
makes it), and strictly greater whenever it is strictly below the
default.  The unamended strictly-greater-always claim fails when the
remaining TTL equals the default (see the counterexample). -/
theorem C8_refresh_extends_ttl
    (w : World) (t name : String)
    (hr : w.redisOk = true)
    (hget : redisGet w.sessions w.now t = some name)
    (hb : remaining_ttl w t ≤ default_ttl_seconds) :
    redisGet (refresh_token_ttl t default_ttl_seconds w).2.sessions
        (refresh_token_ttl t default_ttl_seconds w).2.now t = some name ∧
    remaining_ttl (refresh_token_ttl t default_ttl_seconds w).2 t = default_ttl_seconds ∧
    remaining_ttl w t ≤ remaining_ttl (refresh_token_ttl t default_ttl_seconds w).2 t ∧
    (remaining_ttl w t < default_ttl_seconds →
       remaining_ttl w t < remaining_ttl (refresh_token_ttl t default_ttl_seconds w).2 t) := by
  have hw2 : (refresh_token_ttl t default_ttl_seconds w).2 =
      { w with sessions := redisExpire w.sessions w.now t default_ttl_seconds } := by
    unfold refresh_token_ttl
    simp [hr, hget]
  cases hfe : redisFind w.sessions t with
  | none =>
    have hgeq : redisGet w.sessions w.now t = none := by
      unfold redisGet
      rw [hfe]
    rw [hgeq] at hget
    cases hget
  | some e =>
    have hgeq : redisGet w.sessions w.now t =
        if w.now < e.expiresAt then some e.username else none := by
      unfold redisGet
      rw [hfe]
    have hname : e.username = name := by
      rw [hgeq] at hget
      by_cases hlt : w.now < e.expiresAt
      · rw [if_pos hlt] at hget
        injection hget
      · rw [if_neg hlt] at hget
        cases hget
    have hfind2 : redisFind (redisExpire w.sessions w.now t default_ttl_seconds) t =
        some { e with expiresAt := w.now + default_ttl_seconds } := by
      rw [redisFind_redisExpire, hfe]
      rfl
    have hrem2 : remaining_ttl (refresh_token_ttl t default_ttl_seconds w).2 t =
        default_ttl_seconds := by
      rw [hw2]
      unfold remaining_ttl
      simp only [hfind2]
      omega
    refine ⟨?_, hrem2, ?_, ?_⟩
    · rw [hw2]
      unfold redisGet
      simp only [hfind2]
      rw [if_pos (by unfold default_ttl_seconds; omega)]
      rw [hname]
    · rw [hrem2]
      exact hb
    · intro hstrict
      rw [hrem2]
      exact hstrict

def wC8 : World := ⟨[], [], [], [⟨"t0", "alice", 14400⟩], none, 0, "n0", true⟩

/-- C8 counterexample: a token issued at the current instant (remaining
TTL equal to the default 14400 s) is live, yet `refresh_token_ttl` leaves
its remaining TTL at exactly 14400 s — not strictly greater than it would
have been without the call — so the claim's strict inequality is false as
stated. -/
theorem C8_counterexample :
    wC8.redisOk = true ∧
    redisGet wC8.sessions wC8.now "t0" = some "alice" ∧
    0 < remaining_ttl wC8 "t0" ∧
    ¬ (remaining_ttl wC8 "t0" <
        remaining_ttl (refresh_token_ttl "t0" default_ttl_seconds wC8).2 "t0") := by
  decide

def wC8w : World := ⟨[], [], [], [⟨"t1", "bob", 100⟩], none, 40, "n1", true⟩

/-- C8 witness: the amended theorem applied to a live token with 60 s
remaining; the refresh lifts it to the full default TTL. -/
theorem C8_refresh_extends_ttl_witness :
    redisGet (refresh_token_ttl "t1" default_ttl_seconds wC8w).2.sessions
        (refresh_token_ttl "t1" default_ttl_seconds wC8w).2.now "t1" = some "bob" ∧
    remaining_ttl (refresh_token_ttl "t1" default_ttl_seconds wC8w).2 "t1" = default_ttl_seconds ∧
    remaining_ttl wC8w "t1" ≤ remaining_ttl (refresh_token_ttl "t1" default_ttl_seconds wC8w).2 "t1" ∧
    (remaining_ttl wC8w "t1" < default_ttl_seconds →
       remaining_ttl wC8w "t1" < remaining_ttl (refresh_token_ttl "t1" default_ttl_seconds wC8w).2 "t1") :=
  C8_refresh_extends_ttl wC8w "t1" "bob" (by decide) (by decide) (by decide)

theorem create_redis_audit (username : String) (ttl : Nat) (w : World) :
    (create_redis_session_and_set_url username ttl w).2.audit = w.audit := by
  unfold create_redis_session_and_set_url store_token_in_redis set_query_token generate_token
  by_cases hr : w.redisOk <;> simp [hr]

/-- C2 (amended): when the Session Store write fails, `issue`
(`create_redis_session_and_set_url`) does return no token and leaves the
world unchanged — but `login` marks the user authenticated before calling
`issue` and ignores its result, so after a correct-credential login whose
store write failed the request-local state IS Authenticated, with no
session entry written and no token placed in the URL.  The unamended
claim (state not Authenticated) is refuted by the counterexample. -/
theorem C2_issue_fails_but_login_authenticates :
    (∀ (username : String) (ttl : Nat) (w : World), w.redisOk = false →
       create_redis_session_and_set_url username ttl w = (none, w)) ∧
    (∀ (hp : String → String) (lu lp : String) (s : AppState) (w : World) (u : UserRec),
       w.redisOk = false →
       py_strip lu ≠ "" → lp ≠ "" →
       find_user w.users (py_strip lu) = some u →
       u.password_hash = hp lp →
       (login hp lu lp s w).1.authenticated = true ∧
       (login hp lu lp s w).2.sessions = w.sessions ∧
       (login hp lu lp s w).2.queryToken = w.queryToken) := by
  constructor
  · intro username ttl w hr
    unfold create_redis_session_and_set_url store_token_in_redis generate_token
    simp [hr]
  · intro hp lu lp s w u hr h1 h2 hf hmatch
    unfold login
    simp [h1, h2, hf, hmatch, create_redis_session_and_set_url,
      store_token_in_redis, generate_token, log_action, hr]

def sC2 : AppState := ⟨false, none, false, none⟩

def wC2 : World := ⟨[⟨"alice", "pw", "user"⟩], [], [], [], none, 0, "tk2", false⟩

/-- C2 counterexample: with correct credentials and a failing Session
Store write (`redisOk = false`), `issue` returns no token, yet after
`login` returns the request-local state is Authenticated — refuting the
claim that the caller does not mark the user authenticated in that
case. -/
theorem C2_counterexample :
    create_redis_session_and_set_url "alice" default_ttl_seconds wC2 = (none, wC2) ∧
    (login (fun p => p) "alice" "pw" sC2 wC2).1.authenticated = true := by
  decide

/-- C2 witness: the amended theorem at a concrete failing-store login. -/
theorem C2_issue_fails_but_login_authenticates_witness :
    (login (fun p => p) "alice" "pw" sC2 wC2).1.authenticated = true ∧
    (login (fun p => p) "alice" "pw" sC2 wC2).2.sessions = wC2.sessions ∧
    (login (fun p => p) "alice" "pw" sC2 wC2).2.queryToken = wC2.queryToken :=
  C2_issue_fails_but_login_authenticates.2 (fun p => p) "alice" "pw" sC2 wC2
    ⟨"alice", "pw", "user"⟩ (by decide) (by decide) (by decide) (by decide) (by decide)

theorem delete_user_found_audit (target : String) (d : Bool) (s : AppState) (w : World)
    (ht : target ≠ "") (u : UserRec)
    (hf : w.users.find? (fun x => x.username == target) = some u) :
    (delete_user target d s w).1.audit =
      w.audit ++ [⟨"delete_user", s.username, some target,
        [("deleted_expenses", if d then "True" else "False")]⟩] := by
  unfold delete_user users_delete_one expenses_delete_many_owner
  cases d <;> simp [ht, hf, log_action]

theorem delete_user_absent_nocascade_audit (target : String) (s : AppState) (w : World)
    (ht : target ≠ "")
    (hf : w.users.find? (fun x => x.username == target) = none) :
    (delete_user target false s w).1.audit = w.audit := by
  unfold delete_user users_delete_one
  simp [ht, hf]

/-- C1 (amended): the audit behaviour of the six operations, as the code
has it.  Exactly one Audit Entry with the matching action tag is appended
on each operation's effective path — `login` on successful
authentication, `logout` on every call, `create_user` on an actual
insert, `reset_password` when the target matched, `delete_user` when the
user record was deleted, `delete_all_expenses` when at least one record
was deleted.  No-op calls append no entry (failed or empty-input login,
existing username or empty input in `create_user`, missing user or empty
input in `reset_password`, empty or missing target in `delete_user`,
empty collection in `delete_all_expenses`) — except `delete_user` with
cascade on an absent user that still owns records, which appends one
entry tagged `delete_user_expenses_only` rather than `delete_user`. -/
theorem C1_audit_per_operation :
    (∀ (hp : String → String) (lu lp : String) (s : AppState) (w : World) (u : UserRec),
       find_user w.users (py_strip lu) = some u →
       py_strip lu ≠ "" → lp ≠ "" → u.password_hash = hp lp →
       (login hp lu lp s w).2.audit =
         w.audit ++ [⟨"login", some (py_strip lu), none, []⟩]) ∧
    (∀ (hp : String → String) (lu lp : String) (s : AppState) (w : World),
       (py_strip lu = "" ∨ lp = "") → (login hp lu lp s w).2.audit = w.audit) ∧
    (∀ (hp : String → String) (lu lp : String) (s : AppState) (w : World),
       find_user w.users (py_strip lu) = none →
       (login hp lu lp s w).2.audit = w.audit) ∧
    (∀ (hp : String → String) (lu lp : String) (s : AppState) (w : World) (u : UserRec),
       find_user w.users (py_strip lu) = some u → u.password_hash ≠ hp lp →
       (login hp lu lp s w).2.audit = w.audit) ∧
    (∀ (s : AppState) (w : World),
       (logout s w).2.audit = w.audit ++ [⟨"logout", s.username, none, []⟩]) ∧
    (∀ (hp : String → String) (un pw role : String) (s : AppState) (w : World),
       (py_strip un = "" ∨ pw = "") → (create_user hp un pw role s w).1.audit = w.audit) ∧
    (∀ (hp : String → String) (un pw role : String) (s : AppState) (w : World) (u : UserRec),
       find_user w.users (py_strip un) = some u →
       (create_user hp un pw role s w).1.audit = w.audit) ∧
    (∀ (hp : String → String) (un pw role : String) (s : AppState) (w : World),
       py_strip un ≠ "" → pw ≠ "" → find_user w.users (py_strip un) = none →
       (create_user hp un pw role s w).1.audit =
         w.audit ++ [⟨"create_user", s.username, some (py_strip un), [("role", role)]⟩]) ∧
    (∀ (hp : String → String) (tu np : String) (s : AppState) (w : World),
       (tu = "" ∨ np = "") → (reset_user_password hp tu np s w).1.audit = w.audit) ∧
    (∀ (hp : String → String) (tu np : String) (s : AppState) (w : World),
       tu ≠ "" → np ≠ "" → find_user w.users tu = none →
       (reset_user_password hp tu np s w).1.audit = w.audit) ∧
    (∀ (hp : String → String) (tu np : String) (s : AppState) (w : World) (u : UserRec),
       tu ≠ "" → np ≠ "" → find_user w.users tu = some u →
       (reset_user_password hp tu np s w).1.audit =
         w.audit ++ [⟨"reset_password", s.username, some tu, []⟩]) ∧
    (∀ (d : Bool) (s : AppState) (w : World),
       (delete_user "" d s w).1.audit = w.audit) ∧
    (∀ (target : String) (d : Bool) (s : AppState) (w : World) (u : UserRec),
       target ≠ "" → find_user w.users target = some u →
       (delete_user target d s w).1.audit =
         w.audit ++ [⟨"delete_user", s.username, some target,
           [("deleted_expenses", if d then "True" else "False")]⟩]) ∧
    (∀ (target : String) (s : AppState) (w : World),
       target ≠ "" → find_user w.users target = none →
       0 < count_owned w.expenses target →
       (delete_user target true s w).1.audit =
         w.audit ++ [⟨"delete_user_expenses_only", s.username, some target,
           [("deleted_expenses", toString (count_owned w.expenses target))]⟩]) ∧
    (∀ (target : String) (s : AppState) (w : World),
       target ≠ "" → find_user w.users target = none →
       (delete_user target false s w).1.audit = w.audit) ∧
    (∀ (target : String) (s : AppState) (w : World),
       target ≠ "" → find_user w.users target = none →
       count_owned w.expenses target = 0 →
       (delete_user target true s w).1.audit = w.audit) ∧
    (∀ (s : AppState) (w : World), w.expenses = [] →
       (delete_all_expenses s w).1.audit = w.audit) ∧
    (∀ (s : AppState) (w : World), w.expenses ≠ [] →
       (delete_all_expenses s w).1.audit =
         w.audit ++ [⟨"delete_all_expenses", s.username, none,
           [("deleted_count", toString w.expenses.length)]⟩]) := by
  refine ⟨?_, ?_, ?_, ?_, ?_, ?_, ?_, ?_, ?_, ?_, ?_, ?_, ?_, ?_, ?_, ?_, ?_, ?_⟩
  · intro hp lu lp s w u hf h1 h2 hmatch
    unfold login
    simp [h1, h2, hf, hmatch, log_action, create_redis_audit]
  · intro hp lu lp s w h
    unfold login
    rcases h with h | h <;> simp [h]
  · intro hp lu lp s w hf
    unfold login
    by_cases h1 : py_strip lu = ""
    · simp [h1]
    · by_cases h2 : lp = ""
      · simp [h2]
      · simp [h1, h2, hf]
  · intro hp lu lp s w u hf hne
    unfold login
    by_cases h1 : py_strip lu = ""
    · simp [h1]
    · by_cases h2 : lp = ""
      · simp [h2]
      · simp [h1, h2, hf, hne]
  · intro s w
    show (clear_url_token_and_redis (log_action "logout" s.username none [] w)).audit = _
    rw [clear_url_audit]
    rfl
  · intro hp un pw role s w h
    unfold create_user
    rcases h with h | h <;> simp [h]
  · intro hp un pw role s w u hf
    unfold create_user
    by_cases h1 : py_strip un = ""
    · simp [h1]
    · by_cases h2 : pw = ""
      · simp [h2]
      · simp [h1, h2, hf]
  · intro hp un pw role s w h1 h2 hf
    unfold create_user
    simp [h1, h2, hf, log_action]
  · intro hp tu np s w h
    unfold reset_user_password
    rcases h with h | h <;> simp [h]
  · intro hp tu np s w h1 h2 hf
    unfold reset_user_password
    simp [h1, h2, hf]
  · intro hp tu np s w u h1 h2 hf
    unfold reset_user_password
    simp [h1, h2, hf, log_action]
  · intro d s w
    unfold delete_user
    simp
  · intro target d s w u ht hf
    exact delete_user_found_audit target d s w ht u hf
  · intro target s w ht hf hn
    rw [delete_user_absent_pos target s w ht hf hn]
  · intro target s w ht hf
    exact delete_user_absent_nocascade_audit target s w ht hf
  · intro target s w ht hf hn
    rw [delete_user_absent_zero target s w ht hf hn]
  · intro s w h
    unfold delete_all_expenses
    simp [h]
  · intro s w h
    unfold delete_all_expenses
    simp [h, log_action]

def sC1 : AppState := ⟨true, some "root", true, none⟩

def wC1 : World :=
  ⟨[⟨"root", "hr", "admin"⟩, ⟨"bob", "hb", "user"⟩], [], [], [], none, 0, "t3", true⟩

/-- C1 counterexample: two no-op calls that the claim says must each
append exactly one Audit Entry, yet append none — `create_user` on an
already-existing username, and a failed `login` with an unknown
username. -/
theorem C1_counterexample :
    ¬ ((create_user (fun p => p) "bob" "x" "user" sC1 wC1).1.audit.length =
        wC1.audit.length + 1) ∧
    ¬ ((login (fun p => p) "ghost" "x" sC1 wC1).2.audit.length =
        wC1.audit.length + 1) := by
  decide

/-- C1 witness: the amended theorem at a concrete successful login, which
does append exactly one `login`-tagged entry. -/
theorem C1_audit_per_operation_witness :
    (login (fun p => p) "bob" "hb" sC1 wC1).2.audit =
      wC1.audit ++ [⟨"login", some (py_strip "bob"), none, []⟩] :=
  C1_audit_per_operation.1 (fun p => p) "bob" "hb" sC1 wC1 ⟨"bob", "hb", "user"⟩
    (by decide) (by decide) (by decide) (by decide)

def sC3 : AppState := ⟨false, none, false, none⟩

def wC3 : World := ⟨[⟨"realuser", "pw", "user"⟩], [], [], [], none, 0, "t4", true⟩

/-- C3 witness: unknown-username and wrong-password logins at concrete
inputs produce the identical literal error message. -/
theorem C3_login_failure_message_identical_witness :
    (login (fun p => p) "ghost" "x" sC3 wC3).1.login_error =
      some "Invalid username or password." ∧
    (login (fun p => p) "realuser" "wrongpass" sC3 wC3).1.login_error =
      some "Invalid username or password." :=
  C3_login_failure_message_identical (fun p => p) "ghost" "x" "realuser" "wrongpass"
    sC3 sC3 wC3 ⟨"realuser", "pw", "user"⟩
    (by decide) (by decide) (by decide) (by decide) (by decide) (by decide) (by decide)

def sC4 : AppState := ⟨false, none, false, none⟩

def wC4 : World :=
  ⟨[⟨"carol", "hc", "user"⟩], [], [], [⟨"tok4", "carol", 14400⟩], some "tok4", 0, "t5", true⟩

/-- C4 witness: a page load with a live URL token restores the bound
username. -/
theorem C4_resolve_safe_on_every_load_witness :
    (restore_session_from_url_token sC4 wC4).1.authenticated = true ∧
    (restore_session_from_url_token sC4 wC4).1.username = some "carol" :=
  C4_resolve_safe_on_every_load.1 sC4 wC4 "tok4" "carol"
    (by decide) (by decide) (by decide) (by decide) (by decide)

def wC5 : World := ⟨[], [], [], [⟨"tok5", "dave", 100⟩], some "tok5", 0, "t6", true⟩

/-- C5 witness: double revoke at a concrete store — session absent after
the first delete, second delete a no-op returning false. -/
theorem C5_idempotent_revoke_witness :
    redisGet (delete_token "tok5" wC5).2.sessions (delete_token "tok5" wC5).2.now "tok5" = none ∧
    delete_token "tok5" (delete_token "tok5" wC5).2 = (false, (delete_token "tok5" wC5).2) :=
  C5_idempotent_revoke.1 wC5 "tok5" (by decide)

def sC6 : AppState := ⟨true, some "root", true, none⟩

def wC6 : World :=
  ⟨[⟨"root", "hr", "admin"⟩, ⟨"carol", "hc", "user"⟩],
   [⟨1, "carol"⟩, ⟨2, "carol"⟩, ⟨3, "carol"⟩, ⟨4, "dave"⟩],
   [], [], none, 0, "t7", true⟩

/-- C6 witness: deleting `carol` (3 owned records among 4) removes
exactly 3 records, and repeating the delete reports `No user record
found`. -/
theorem C6_cascade_delete_accounting_witness :
    wC6.expenses.length =
      (delete_user "carol" true sC6 wC6).1.expenses.length + count_owned wC6.expenses "carol" ∧
    (delete_user "carol" true sC6 (delete_user "carol" true sC6 wC6).1).2 =
      [UiMsg.warning ("No user record found for \x27carol\x27.")] := by
  have h := C6_cascade_delete_accounting sC6 wC6 "carol" (by decide) (by decide)
  exact ⟨h.1.2.1, h.1.2.2.2.2.2⟩

def sC7 : AppState := ⟨true, some "eve", false, none⟩

def wC7 : World := ⟨[], [], [], [⟨"tok7", "eve", 500⟩], some "tok7", 0, "t8", true⟩

/-- C7 witness: logging out an authenticated user with a live token
resets the state, appends one `logout` entry and removes the session. -/
theorem C7_logout_always_resets_to_anonymous_witness :
    (logout sC7 wC7).1.authenticated = false ∧
    (logout sC7 wC7).2.audit = wC7.audit ++ [⟨"logout", sC7.username, none, []⟩] ∧
    redisGet (logout sC7 wC7).2.sessions (logout sC7 wC7).2.now "tok7" = none := by
  have h := C7_logout_always_resets_to_anonymous sC7 wC7 (by decide)
  exact ⟨h.1, h.2.2.2.1, h.2.2.2.2 "tok7" (by decide) (by decide) (by decide)⟩

def sC9 : AppState := ⟨false, none, false, none⟩

def wC9 : World :=
  ⟨[⟨"root", "hr", "admin"⟩], [], [], [⟨"tok9", "ghost", 800⟩], some "tok9", 0, "t9", true⟩

/-- C9 witness: a live token bound to `ghost`, who has no Credential
Store record, still restores an authenticated non-admin state. -/
theorem C9_deleted_user_session_survives_witness :
    (restore_session_from_url_token sC9 wC9).1.authenticated = true ∧
    (restore_session_from_url_token sC9 wC9).1.username = some "ghost" ∧
    (restore_session_from_url_token sC9 wC9).1.is_admin = false :=
  C9_deleted_user_session_survives.1 sC9 wC9 "tok9" "ghost"
    (by decide) (by decide) (by decide) (by decide) (by decide) (by decide)

def sC10 : AppState := ⟨true, some "root", true, none⟩

def wC10 : World :=
  ⟨[⟨"root", "hr", "admin"⟩, ⟨"boot", "hb", "admin"⟩], [], [], [], none, 0, "ta", true⟩

/-- C10 witness: `delete_user` deletes the caller's own record when asked
to, while the UI candidate list excludes both the caller and the
bootstrap admin. -/
theorem C10_no_self_or_bootstrap_check_in_delete_user_witness :
    find_user (delete_user "root" false sC10 wC10).1.users "root" = none ∧
    "root" ∉ users_list_del "root" (some "boot") wC10.users ∧
    "boot" ∉ users_list_del "root" (some "boot") wC10.users :=
  ⟨C10_no_self_or_bootstrap_check_in_delete_user.1 "root" false sC10 wC10
      (by decide) (by decide),
   C10_no_self_or_bootstrap_check_in_delete_user.2.1 "root" (some "boot") wC10.users,
   C10_no_self_or_bootstrap_check_in_delete_user.2.2 "root" "boot" wC10.users⟩
